import Mathlib

/-!
Verification of the EAMS attendance terminal core: the scan-orchestration
workflow (`handleScan` in the Scanner component of src/components/Camera.tsx),
the recognition-service wrapper (`identifyEmployeeWithGemini` in
src/services/geminiService.ts), and the camera capture session
(the Camera component effect in src/components/Camera.tsx).

The TypeScript source is shallowly embedded: JavaScript truthiness on
optional strings is `truthy`, thrown exceptions become `Except`, React
state updates become explicit record updates, and the asynchronous
effect lifecycle of the Camera component becomes a step relation over an
explicit system state.
-/

namespace EAMS

/-! ## Data model, from src/types.ts -/

/-- Employee record, from `interface Employee` in src/types.ts. -/
structure Employee where
  id : String
  name : String
  role : String
  photoBase64 : String
  registeredAt : String
  deriving DecidableEq, Repr

/-- Attendance record type tag, from `'CHECK_IN' | 'CHECK_OUT'` in src/types.ts. -/
inductive RecordType where
  | CHECK_IN
  | CHECK_OUT
  deriving DecidableEq, Repr

/-- Attendance record, from `interface AttendanceRecord` in src/types.ts.
The float `confidence` is embedded as a rational. -/
structure AttendanceRecord where
  id : String
  employeeId : String
  employeeName : String
  timestamp : String
  confidence : Rat
  type : RecordType
  deriving DecidableEq, Repr

/-- Recognition service response, from `interface IdentificationResult` in
src/types.ts. The source field `match` is a reserved word in Lean and is
embedded as `matched`; the optional fields become `Option String`. -/
structure IdentificationResult where
  matched : Bool
  employeeId : Option String
  name : Option String
  confidence : Rat
  deriving DecidableEq, Repr

/-- Scanner result state, from `lastResult` in the Scanner component:
`{ success: boolean; message: string; data?: any }`. -/
structure ScanResult where
  success : Bool
  message : String
  data : Option IdentificationResult
  deriving DecidableEq, Repr

/-- The Scanner component state touched by `handleScan`:
`isProcessing`, `lastResult`, and the persisted attendance log
(localStorage list appended to by `saveAttendanceRecord`). -/
structure ScannerState where
  isProcessing : Bool
  lastResult : Option ScanResult
  records : List AttendanceRecord
  deriving DecidableEq, Repr

/-! ## JavaScript string helpers -/

/-- JavaScript truthiness of an optional string: `undefined`, `null` and
the empty string are falsy. -/
def truthy : Option String → Bool
  | none => false
  | some s => !(s == "")

/-- Whether the pattern is a leading segment of the character list. -/
def leadMatch : List Char → List Char → Bool
  | _, [] => true
  | [], _ :: _ => false
  | c :: cs, d :: ds => c == d && leadMatch cs ds

/-- Substring search over character lists. -/
def subSearch : List Char → List Char → Bool
  | [], pat => leadMatch [] pat
  | c :: cs, pat => leadMatch (c :: cs) pat || subSearch cs pat

/-- Embedding of JavaScript `String.prototype.includes`. -/
def jsIncludes (s pat : String) : Bool := subSearch s.data pat.data

/-! ## Recognition service, from src/services/geminiService.ts
(the variant whose errors bubble up to the Scanner: it throws on a
missing credential, an empty model response, and unparseable JSON, and
lets transport errors propagate; the Scanner catch block then classifies
the message). -/

/-- The possible behaviors of the external Gemini call once reached:
a transport-level failure carrying an error message, an empty
`response.text`, text that fails `JSON.parse`, or a parsed result. -/
inductive ServiceBehavior where
  | transport (msg : String)
  | emptyText
  | malformed
  | ok (r : IdentificationResult)
  deriving DecidableEq, Repr

/-- `identifyEmployeeWithGemini` from src/services/geminiService.ts:
throws when `process.env.API_KEY` is falsy; returns a negative result
when the roster is empty; otherwise the outcome is the external call
behavior (errors and parse failures become `Except.error` with the
thrown message). -/
def identifyEmployeeWithGemini (apiKey : Option String) (employees : List Employee)
    (beh : ServiceBehavior) : Except String IdentificationResult :=
  if truthy apiKey = false then
    .error "API Key is missing in environment variables."
  else if employees.length = 0 then
    .ok ⟨false, none, none, 0⟩
  else
    match beh with
    | .transport m => .error m
    | .emptyText => .error "Empty response from AI model."
    | .malformed => .error "Invalid response format from AI."
    | .ok r => .ok r

/-- The bounded reference gallery: `const recentEmployees = employees.slice(-50)`
in src/services/geminiService.ts; JavaScript `slice(-50)` keeps the last
(at most) 50 elements. -/
def recentEmployees (employees : List Employee) : List Employee :=
  employees.drop (employees.length - 50)

/-! ## Scan orchestrator: `handleScan` in the Scanner component -/

/-- Message of the negative empty-roster result in `handleScan`. -/
def noEmployeesMsg : String := "No employees registered yet."

/-- Message of the negative no-match result in `handleScan`. -/
def notRecognizedMsg : String := "Face not recognized. Please try closer or check lighting."

/-- Message of the error thrown when `capture()` yields no image. -/
def captureFailedMsg : String := "Failed to capture image"

/-- Default scan error message in the `handleScan` catch block. -/
def genericErrMsg : String := "Error processing scan."

/-- Scan error message for a missing credential in the `handleScan` catch block. -/
def apiKeyErrMsg : String :=
  "System Error: API Key not found. Please add \x27API_KEY\x27 in Vercel Environment Variables."

/-- Scan error message for a rate-limited service in the `handleScan` catch block. -/
def busyErrMsg : String := "Service busy. Please try again in a moment."

/-- Positive result message: `Welcome, ${result.name}!`. -/
def welcomeMsg (name : String) : String := "Welcome, " ++ name ++ "!"

/-- The `handleScan` catch block: inspects the caught error message and
picks the credential message, the rate-limit message, or the generic one. -/
def classifyScanError (msg : String) : String :=
  if jsIncludes msg "API Key" then apiKeyErrMsg
  else if jsIncludes msg "429" then busyErrMsg
  else genericErrMsg

/-- The attendance record constructed on a positive match in `handleScan`:
fresh id, the matched identifier and name, the current timestamp, the
response confidence, and the fixed `CHECK_IN` type. -/
def mkRecord (newId : String) (r : IdentificationResult) (now : String) : AttendanceRecord :=
  { id := newId
    employeeId := r.employeeId.getD ""
    employeeName := r.name.getD ""
    timestamp := now
    confidence := r.confidence
    type := .CHECK_IN }

/-- Outcome of one `handleScan` call: the resulting Scanner state, and
whether `identifyEmployeeWithGemini` was invoked. -/
structure ScanStep where
  state : ScannerState
  serviceCalled : Bool
  deriving DecidableEq, Repr

/-- `handleScan` from the Scanner component in src/components/Camera.tsx.
Inputs: the Scanner state, whether `cameraRef.current` is non-null, the
value returned by `capture()`, the roster, the environment credential,
the external-call behavior, and the fresh uuid / current timestamp.
The early `return` when the camera ref is null or a scan is in flight
changes nothing; the `finally` block clears `isProcessing` on every
other path; the catch block classifies thrown messages. -/
def handleScan (st : ScannerState) (cameraPresent : Bool) (captureResult : Option String)
    (employees : List Employee) (apiKey : Option String) (beh : ServiceBehavior)
    (newId now : String) : ScanStep :=
  if !cameraPresent || st.isProcessing then ⟨st, false⟩
  else if truthy captureResult = false then
    ⟨⟨false, some ⟨false, classifyScanError captureFailedMsg, none⟩, st.records⟩, false⟩
  else if employees.length = 0 then
    ⟨⟨false, some ⟨false, noEmployeesMsg, none⟩, st.records⟩, false⟩
  else
    match identifyEmployeeWithGemini apiKey employees beh with
    | .error m =>
        ⟨⟨false, some ⟨false, classifyScanError m, none⟩, st.records⟩, true⟩
    | .ok r =>
        if r.matched && truthy r.employeeId && truthy r.name then
          ⟨⟨false, some ⟨true, welcomeMsg (r.name.getD ""), some r⟩,
            st.records ++ [mkRecord newId r now]⟩, true⟩
        else
          ⟨⟨false, some ⟨false, notRecognizedMsg, none⟩, st.records⟩, true⟩

/-! ## Camera capture session, from the Camera component effect in
src/components/Camera.tsx (lines 178-277 of the concatenated file).

Device streams are numbered by a fresh counter `nextId`; `live` is the
list of acquired device streams not yet stopped. Each run of the React
effect is an `EffectInst`: its closure-local `currentStream` variable,
its `isMounted` flag, and the value of the component `stream` state
captured by its cleanup closure (`streamSnapshot`). React runs the
previous effect cleanup before the next effect body; an in-flight
`getUserMedia` continuation belonging to a cleaned-up effect still runs
later, which is the race the mount check guards. -/

/-- One run of the Camera effect: its `isMounted` flag, whether its
`getUserMedia` acquisition is still in flight, its local `currentStream`
variable, and the `stream` state value its cleanup closure captured. -/
structure EffectInst where
  isMounted : Bool
  pending : Bool
  currentStream : Option Nat
  streamSnapshot : Option Nat
  deriving DecidableEq, Repr

/-- The camera capture session system state: the `active` prop, whether
the component is still mounted, the `stream` React state, the current
effect run (`head`), superseded effect runs whose acquisitions may still
be in flight (`old`), the device streams acquired and not yet stopped
(`live`), and the fresh stream counter. -/
structure CamSys where
  active : Bool
  mounted : Bool
  stream : Option Nat
  head : Option EffectInst
  old : List EffectInst
  live : List Nat
  nextId : Nat
  deriving DecidableEq, Repr

/-- `track.stop()` on an optional stream handle: stopping an
already-stopped stream is a no-op. -/
def stopStream (live : List Nat) : Option Nat → List Nat
  | none => live
  | some s => live.erase s

/-- The effect cleanup (lines 267-276): mark unmounted, stop the local
`currentStream`, stop the closure-captured `stream`, `setStream(null)`.
A pending acquisition is not cancelled; its continuation runs later. -/
def cleanupEffect (e : EffectInst) (live : List Nat) : EffectInst × List Nat :=
  let live1 := stopStream live e.currentStream
  let live2 := stopStream live1 e.streamSnapshot
  (⟨false, e.pending, e.currentStream, e.streamSnapshot⟩, live2)

/-- A fresh effect run: `startCamera` returns immediately when the
`active` prop is false, so an acquisition is pending exactly when the
session is active. The new cleanup closure captures the current `stream`
state value. -/
def newEffect (active : Bool) (snapshot : Option Nat) : EffectInst :=
  ⟨true, active, none, snapshot⟩

/-- Re-running the effect after its dependencies (`active`,
`retryTrigger`) change: cleanup of the previous run, then a fresh run. -/
def rerunEffect (sys : CamSys) (newActive : Bool) : CamSys :=
  match sys.head with
  | none => sys
  | some e =>
    { sys with
        active := newActive
        stream := none
        head := some (newEffect newActive sys.stream)
        old := (cleanupEffect e sys.live).1 :: sys.old
        live := (cleanupEffect e sys.live).2 }

/-- The continuation of an in-flight acquisition resolving. On success a
fresh device stream is acquired (added to `live`); the mount check
(lines 234-239) then either installs it (`setStream`) or, when the
effect was cleaned up meanwhile, stops it immediately without installing
it. On failure the effect records no stream. -/
def resolveEffect (e : EffectInst) (live : List Nat) (stream : Option Nat) (nextId : Nat)
    (ok : Bool) : EffectInst × List Nat × Option Nat × Nat :=
  if e.pending = false then (e, live, stream, nextId)
  else if ok then
    let s := nextId
    let live1 := s :: live
    if e.isMounted then
      (⟨e.isMounted, false, some s, e.streamSnapshot⟩, live1, some s, nextId + 1)
    else
      (⟨e.isMounted, false, some s, e.streamSnapshot⟩, live1.erase s, stream, nextId + 1)
  else
    (⟨e.isMounted, false, none, e.streamSnapshot⟩, live, stream, nextId)

/-- Events driving the capture session: the `active` prop toggling, the
manual retry action (`retryTrigger` increment), an in-flight acquisition
of the current or of a superseded effect run resolving, and the
component being discarded (unmount). -/
inductive CamEvent where
  | setActive (b : Bool)
  | retry
  | resolveHead (ok : Bool)
  | resolveOld (i : Nat) (ok : Bool)
  | discard
  deriving DecidableEq, Repr

/-- One transition of the capture session. React re-runs the effect only
when a dependency changed, so `setActive` with the current value is a
no-op; events on an unmounted component are no-ops. -/
def step (sys : CamSys) : CamEvent → CamSys
  | .setActive b =>
      if sys.mounted = false then sys
      else if b = sys.active then sys
      else rerunEffect sys b
  | .retry =>
      if sys.mounted = false then sys
      else rerunEffect sys sys.active
  | .resolveHead ok =>
      match sys.head with
      | none => sys
      | some e =>
        let r := resolveEffect e sys.live sys.stream sys.nextId ok
        { sys with head := some r.1, live := r.2.1, stream := r.2.2.1, nextId := r.2.2.2 }
  | .resolveOld i ok =>
      match sys.old[i]? with
      | none => sys
      | some e =>
        let r := resolveEffect e sys.live sys.stream sys.nextId ok
        { sys with
            old := sys.old.set i r.1
            live := r.2.1
            stream := r.2.2.1
            nextId := r.2.2.2 }
  | .discard =>
      if sys.mounted = false then sys
      else
        match sys.head with
        | none => sys
        | some e =>
          { sys with
              mounted := false
              stream := none
              head := none
              old := (cleanupEffect e sys.live).1 :: sys.old
              live := (cleanupEffect e sys.live).2 }

/-- The session as mounted with the initial `active` prop value: the
first effect run starts an acquisition exactly when active. -/
def initSys (a : Bool) : CamSys :=
  { active := a, mounted := true, stream := none,
    head := some (newEffect a none), old := [], live := [], nextId := 0 }

/-- The session state after a sequence of events. -/
def runEvents (a : Bool) (evs : List CamEvent) : CamSys :=
  evs.foldl step (initSys a)

/-- The per-effect part of the session invariant: a pending acquisition
has produced nothing yet and only exists while active; a resolved
successful acquisition of the current effect is exactly the installed
stream and the only live one; otherwise nothing is live; the snapshot
captured by the cleanup closure is never a live stream and is always an
already-issued id. -/
def EffectOK (live : List Nat) (stream : Option Nat) (active : Bool) (nextId : Nat)
    (e : EffectInst) : Prop :=
  (e.pending = true → e.currentStream = none ∧ live = [] ∧ stream = none ∧
      active = true) ∧
  (e.pending = false → e.currentStream = none → live = [] ∧ stream = none) ∧
  (∀ s, e.pending = false → e.currentStream = some s →
      live = [s] ∧ stream = some s ∧ active = true ∧ s < nextId) ∧
  (∀ t, e.streamSnapshot = some t → t ∉ live ∧ t < nextId)

/-- The per-effect invariant instantiated at a session state. -/
def EffectStateOK (sys : CamSys) (e : EffectInst) : Prop :=
  EffectOK sys.live sys.stream sys.active sys.nextId e

/-- The capture session invariant: superseded effect runs are unmounted,
and the current effect run (when the component is mounted) satisfies
`EffectStateOK`; an unmounted component holds nothing. -/
def Inv (sys : CamSys) : Prop :=
  (∀ e ∈ sys.old, e.isMounted = false) ∧
  (sys.head = none → sys.mounted = false ∧ sys.live = [] ∧ sys.stream = none) ∧
  (∀ e, sys.head = some e → e.isMounted = true ∧ sys.mounted = true ∧ EffectStateOK sys e)

/-! ## Capture operation, from `capture` in the Camera component
(lines 279-300): returns null when the video element or the installed
stream is missing, or when no 2d canvas context is available; otherwise
a data-URL still of the current frame. It reads but never writes the
session state, and it is total (never throws). -/

/-- `capture()`: a pure read of the session. -/
def capture (videoPresent : Bool) (stream : Option Nat) (ctx2d : Bool)
    (frame : String) : Option String :=
  if !videoPresent || stream.isNone then none
  else if !ctx2d then none
  else some frame

/-- `capture()` as a state transition: it returns its value and leaves
the session untouched (the source writes no state in `capture`). -/
def captureStep (sys : CamSys) (videoPresent ctx2d : Bool) (frame : String) :
    Option String × CamSys :=
  (capture videoPresent sys.stream ctx2d frame, sys)

/-! ## Camera acquisition constraint fallback, from `startCamera`
(lines 203-261): three constraint profiles tried in order; a permission
refusal is rethrown out of the loop, any other failure advances to the
next profile; exhaustion throws a generic `Error`; the outer catch maps
the thrown error name to the displayed error state. -/

/-- Whether an error name is a permission refusal
(`NotAllowedError` or `PermissionDeniedError`). -/
def isPermissionErr (n : String) : Bool :=
  n == "NotAllowedError" || n == "PermissionDeniedError"

/-- Behavior of `getUserMedia` for one constraint profile. -/
inductive ProfileOutcome where
  | ok
  | fail (errName : String)
  deriving DecidableEq, Repr

/-- Result of the constraint loop. -/
inductive TryResult where
  | gotStream
  | thrown (errName : String)
  | exhausted
  deriving DecidableEq, Repr

/-- The `for (const constraints of constraintsSets)` loop: returns how
many profiles were attempted and how the loop ended. -/
def tryConstraints : List ProfileOutcome → Nat × TryResult
  | [] => (0, .exhausted)
  | .ok :: _ => (1, .gotStream)
  | .fail n :: rest =>
      if isPermissionErr n then (1, .thrown n)
      else
        let r := tryConstraints rest
        (r.1 + 1, r.2)

/-- Error message of the exhaustion throw in `startCamera`. -/
def noStreamMsg : String := "Could not initialize camera with any supported settings."

/-- Error message of the permission-denied error state. -/
def permissionMsg : String := "Access denied. Please allow camera permission."

/-- Error message of the no-device error state. -/
def noDeviceMsg : String := "No camera device found."

/-- Error message of the device-busy error state. -/
def deviceBusyMsg : String := "Camera is busy (used by another app?) or inaccessible."

/-- The outer catch of `startCamera` (lines 247-260): maps the caught
error name (and, in the fallback branch, its message) to the displayed
error message and the `permissionDenied` flag. -/
def camErrorState (errName errMessage : String) : String × Bool :=
  if isPermissionErr errName then (permissionMsg, true)
  else if errName == "NotFoundError" then (noDeviceMsg, false)
  else if errName == "NotReadableError" then (deviceBusyMsg, false)
  else (errMessage, false)

/-- Observable outcome of one `startCamera` acquisition attempt on a
mounted, active session with camera API support: profiles attempted,
whether a stream was installed, and the error state (`setError('')`
clears it at the start, so success leaves it empty). -/
structure StartOutcome where
  attempted : Nat
  gotStream : Bool
  error : String
  permissionDenied : Bool
  deriving DecidableEq, Repr

/-- One full `startCamera` run over the given per-profile device
behaviors: run the constraint loop, then either install the stream or
classify the escaped error. The exhaustion throw is a plain `Error`
(name `Error`) carrying `noStreamMsg`, so it lands in the fallback
branch of the catch. -/
def startCameraRun (outcomes : List ProfileOutcome) : StartOutcome :=
  let r := tryConstraints outcomes
  match r.2 with
  | .gotStream => ⟨r.1, true, "", false⟩
  | .thrown n =>
      let es := camErrorState n ""
      ⟨r.1, false, es.1, es.2⟩
  | .exhausted =>
      let es := camErrorState "Error" noStreamMsg
      ⟨r.1, false, es.1, es.2⟩

/-! ## Sample concrete inputs used by witness theorems -/

/-- A sample registered employee. -/
def emp1 : Employee := ⟨"E1", "Jane Doe", "Engineer", "photo1", "2026-01-01"⟩

/-- A sample positive service response with identifier and name present. -/
def r1 : IdentificationResult := ⟨true, some "E1", some "Jane Doe", 93 / 100⟩

/-- A sample degenerate service response: matched but with an empty name. -/
def r2 : IdentificationResult := ⟨true, some "E1", some "", 1 / 2⟩

/-! ## Capture session invariant: proofs -/

theorem stopStream_nil (o : Option Nat) : stopStream [] o = [] := by
  cases o <;> simp [stopStream]

theorem cleanup_live_nil (live : List Nat) (stream : Option Nat) (active : Bool)
    (nextId : Nat) (e : EffectInst) (h : EffectOK live stream active nextId e) :
    (cleanupEffect e live).2 = [] := by
  obtain ⟨h1, h2, h3, _h4⟩ := h
  have e1 : stopStream live e.currentStream = [] := by
    cases hp : e.pending
    · cases hc : e.currentStream with
      | none => simpa [stopStream, hc] using (h2 hp hc).1
      | some s => simp [stopStream, hc, (h3 s hp hc).1]
    · simp [stopStream, (h1 hp).1, (h1 hp).2.1]
  show stopStream (stopStream live e.currentStream) e.streamSnapshot = []
  rw [e1]
  exact stopStream_nil _

theorem effectOK_mono (live : List Nat) (stream : Option Nat) (active : Bool)
    (n n' : Nat) (e : EffectInst) (h : EffectOK live stream active n e) (hn : n ≤ n') :
    EffectOK live stream active n' e := by
  obtain ⟨h1, h2, h3, h4⟩ := h
  refine ⟨h1, h2, ?_, ?_⟩
  · intro s hp hc
    obtain ⟨a, b, c, d⟩ := h3 s hp hc
    exact ⟨a, b, c, lt_of_lt_of_le d hn⟩
  · intro t ht
    obtain ⟨a, b⟩ := h4 t ht
    exact ⟨a, lt_of_lt_of_le b hn⟩

theorem stream_lt_of_effectOK (live : List Nat) (stream : Option Nat) (active : Bool)
    (n : Nat) (e : EffectInst) (h : EffectOK live stream active n e) :
    ∀ t, stream = some t → t < n := by
  obtain ⟨h1, h2, h3, _h4⟩ := h
  intro t ht
  cases hp : e.pending
  · cases hc : e.currentStream with
    | none =>
      rw [(h2 hp hc).2] at ht
      cases ht
    | some s =>
      obtain ⟨_, hb, _, hd⟩ := h3 s hp hc
      rw [hb] at ht
      rw [← Option.some.inj ht]
      exact hd
  · rw [(h1 hp).2.2.1] at ht
    cases ht

theorem live_lt_of_effectOK (live : List Nat) (stream : Option Nat) (active : Bool)
    (n : Nat) (e : EffectInst) (h : EffectOK live stream active n e) :
    ∀ s ∈ live, s < n := by
  obtain ⟨h1, h2, h3, _h4⟩ := h
  intro s hs
  cases hp : e.pending
  · cases hc : e.currentStream with
    | none =>
      rw [(h2 hp hc).1] at hs
      cases hs
    | some u =>
      obtain ⟨ha, _, _, hd⟩ := h3 u hp hc
      rw [ha] at hs
      have : s = u := by simpa using hs
      rw [this]
      exact hd
  · rw [(h1 hp).2.1] at hs
    cases hs

theorem inv_rerun (sys : CamSys) (b : Bool) (h : Inv sys) : Inv (rerunEffect sys b) := by
  obtain ⟨hold, hnone, hsome⟩ := h
  cases hh : sys.head with
  | none =>
    have he : rerunEffect sys b = sys := by simp [rerunEffect, hh]
    rw [he]
    exact ⟨hold, hnone, hsome⟩
  | some e =>
    obtain ⟨hem, hemt, hok⟩ := hsome e hh
    have he : rerunEffect sys b =
        { sys with
            active := b
            stream := none
            head := some (newEffect b sys.stream)
            old := (cleanupEffect e sys.live).1 :: sys.old
            live := (cleanupEffect e sys.live).2 } := by
      simp [rerunEffect, hh]
    rw [he]
    have hl : (cleanupEffect e sys.live).2 = [] := cleanup_live_nil _ _ _ _ _ hok
    refine ⟨?_, ?_, ?_⟩
    · intro x hx
      rcases List.mem_cons.mp hx with hx | hx
      · rw [hx]; rfl
      · exact hold x hx
    · intro hcontra
      simp at hcontra
    · intro e2 he2
      have he2' : e2 = newEffect b sys.stream := by simpa using he2.symm
      rw [he2']
      refine ⟨rfl, hemt, ?_⟩
      show EffectOK (cleanupEffect e sys.live).2 none b sys.nextId (newEffect b sys.stream)
      rw [hl]
      refine ⟨?_, ?_, ?_, ?_⟩
      · intro hp
        exact ⟨rfl, rfl, rfl, hp⟩
      · intro _ _
        exact ⟨rfl, rfl⟩
      · intro s _ hc
        cases hc
      · intro t ht
        have hst : sys.stream = some t := ht
        exact ⟨by simp, stream_lt_of_effectOK _ _ _ _ _ hok t hst⟩

theorem inv_step (sys : CamSys) (ev : CamEvent) (h : Inv sys) : Inv (step sys ev) := by
  obtain ⟨hold, hnone, hsome⟩ := h
  cases ev with
  | setActive b =>
    by_cases hm : sys.mounted = false
    · have he : step sys (.setActive b) = sys := by simp [step, hm]
      rw [he]; exact ⟨hold, hnone, hsome⟩
    · by_cases hb : b = sys.active
      · have he : step sys (.setActive b) = sys := by simp [step, hm, hb]
        rw [he]; exact ⟨hold, hnone, hsome⟩
      · have he : step sys (.setActive b) = rerunEffect sys b := by simp [step, hm, hb]
        rw [he]; exact inv_rerun sys b ⟨hold, hnone, hsome⟩
  | retry =>
    by_cases hm : sys.mounted = false
    · have he : step sys .retry = sys := by simp [step, hm]
      rw [he]; exact ⟨hold, hnone, hsome⟩
    · have he : step sys .retry = rerunEffect sys sys.active := by simp [step, hm]
      rw [he]; exact inv_rerun sys sys.active ⟨hold, hnone, hsome⟩
  | discard =>
    by_cases hm : sys.mounted = false
    · have he : step sys .discard = sys := by simp [step, hm]
      rw [he]; exact ⟨hold, hnone, hsome⟩
    · cases hh : sys.head with
      | none =>
        have he : step sys .discard = sys := by simp [step, hm, hh]
        rw [he]; exact ⟨hold, hnone, hsome⟩
      | some e =>
        obtain ⟨hem, hemt, hok⟩ := hsome e hh
        have he : step sys .discard =
            { sys with
                mounted := false
                stream := none
                head := none
                old := (cleanupEffect e sys.live).1 :: sys.old
                live := (cleanupEffect e sys.live).2 } := by
          simp [step, hm, hh]
        rw [he]
        have hl : (cleanupEffect e sys.live).2 = [] := cleanup_live_nil _ _ _ _ _ hok
        refine ⟨?_, ?_, ?_⟩
        · intro x hx
          rcases List.mem_cons.mp hx with hx | hx
          · rw [hx]; rfl
          · exact hold x hx
        · intro _
          exact ⟨rfl, hl, rfl⟩
        · intro e2 he2
          cases he2
  | resolveHead ok =>
    cases hh : sys.head with
    | none =>
      have he : step sys (.resolveHead ok) = sys := by simp [step, hh]
      rw [he]; exact ⟨hold, hnone, hsome⟩
    | some e =>
      obtain ⟨hem, hemt, hok⟩ := hsome e hh
      cases hp : e.pending
      · have he : step sys (.resolveHead ok) =
            { sys with
                head := some e
                live := sys.live
                stream := sys.stream
                nextId := sys.nextId } := by
          simp [step, hh, resolveEffect, hp]
        rw [he]
        refine ⟨hold, ?_, ?_⟩
        · intro hcontra; cases hcontra
        · intro e2 he2
          have he2' : e2 = e := by simpa using he2.symm
          rw [he2']
          exact ⟨hem, hemt, hok⟩
      · obtain ⟨hc, hlv, hst, hac⟩ := hok.1 hp
        cases ok
        · have he : step sys (.resolveHead false) =
              { sys with
                  head := some ⟨e.isMounted, false, none, e.streamSnapshot⟩
                  live := sys.live
                  stream := sys.stream
                  nextId := sys.nextId } := by
            simp [step, hh, resolveEffect, hp]
          rw [he]
          refine ⟨hold, ?_, ?_⟩
          · intro hcontra; cases hcontra
          · intro e2 he2
            have he2' : e2 = ⟨e.isMounted, false, none, e.streamSnapshot⟩ := by
              simpa using he2.symm
            rw [he2']
            refine ⟨hem, hemt, ?_, ?_, ?_, ?_⟩
            · intro hcontra; cases hcontra
            · intro _ _
              exact ⟨hlv, hst⟩
            · intro s _ hcontra; cases hcontra
            · intro t ht
              exact hok.2.2.2 t ht
        · have he : step sys (.resolveHead true) =
              { sys with
                  head := some ⟨e.isMounted, false, some sys.nextId, e.streamSnapshot⟩
                  live := sys.nextId :: sys.live
                  stream := some sys.nextId
                  nextId := sys.nextId + 1 } := by
            simp [step, hh, resolveEffect, hp, hem]
          rw [he]
          refine ⟨hold, ?_, ?_⟩
          · intro hcontra; cases hcontra
          · intro e2 he2
            have he2' : e2 = ⟨e.isMounted, false, some sys.nextId, e.streamSnapshot⟩ := by
              simpa using he2.symm
            rw [he2']
            refine ⟨hem, hemt, ?_, ?_, ?_, ?_⟩
            · intro hcontra; cases hcontra
            · intro _ hcontra; cases hcontra
            · intro s _ hs
              have hs' : s = sys.nextId := (Option.some.inj hs).symm
              rw [hs', hlv]
              exact ⟨rfl, rfl, hac, Nat.lt_succ_self _⟩
            · intro t ht
              obtain ⟨hnin, hlt⟩ := hok.2.2.2 t ht
              refine ⟨?_, Nat.lt_succ_of_lt hlt⟩
              intro hmem
              rcases List.mem_cons.mp hmem with hx | hx
              · exact absurd hx (Nat.ne_of_lt hlt)
              · exact hnin hx
  | resolveOld i ok =>
    cases hg : sys.old[i]? with
    | none =>
      have he : step sys (.resolveOld i ok) = sys := by simp [step, hg]
      rw [he]; exact ⟨hold, hnone, hsome⟩
    | some e =>
      have hmem : e ∈ sys.old := List.getElem?_mem hg
      have hum : e.isMounted = false := hold e hmem
      have holdset : ∀ (e' : EffectInst), e'.isMounted = false →
          ∀ x ∈ sys.old.set i e', x.isMounted = false := by
        intro e' he' x hx
        rcases List.mem_or_eq_of_mem_set hx with hx | hx
        · exact hold x hx
        · rw [hx]; exact he'
      cases hp : e.pending
      · have he : step sys (.resolveOld i ok) =
            { sys with
                old := sys.old.set i e
                live := sys.live
                stream := sys.stream
                nextId := sys.nextId } := by
          simp [step, hg, resolveEffect, hp]
        rw [he]
        exact ⟨holdset e hum, fun hn => hnone hn, fun e2 he2 => hsome e2 he2⟩
      · cases ok
        · have he : step sys (.resolveOld i false) =
              { sys with
                  old := sys.old.set i ⟨e.isMounted, false, none, e.streamSnapshot⟩
                  live := sys.live
                  stream := sys.stream
                  nextId := sys.nextId } := by
            simp [step, hg, resolveEffect, hp]
          rw [he]
          exact ⟨holdset _ hum, fun hn => hnone hn, fun e2 he2 => hsome e2 he2⟩
        · have he : step sys (.resolveOld i true) =
              { sys with
                  old := sys.old.set i ⟨e.isMounted, false, some sys.nextId, e.streamSnapshot⟩
                  live := (sys.nextId :: sys.live).erase sys.nextId
                  stream := sys.stream
                  nextId := sys.nextId + 1 } := by
            simp [step, hg, resolveEffect, hp, hum]
          rw [he]
          have herase : (sys.nextId :: sys.live).erase sys.nextId = sys.live :=
            List.erase_cons_head _ _
          refine ⟨holdset _ hum, ?_, ?_⟩
          · intro hn
            obtain ⟨a, b, c⟩ := hnone hn
            exact ⟨a, by rw [herase]; exact b, c⟩
          · intro e2 he2
            obtain ⟨a, b, c⟩ := hsome e2 he2
            refine ⟨a, b, ?_⟩
            show EffectOK ((sys.nextId :: sys.live).erase sys.nextId) sys.stream sys.active
              (sys.nextId + 1) e2
            rw [herase]
            exact effectOK_mono _ _ _ _ _ _ c (Nat.le_succ _)

theorem inv_init (a : Bool) : Inv (initSys a) := by
  refine ⟨?_, ?_, ?_⟩
  · intro x hx
    cases hx
  · intro hcontra
    cases hcontra
  · intro e2 he2
    have he2' : e2 = newEffect a none := by simpa [initSys] using he2.symm
    rw [he2']
    refine ⟨rfl, rfl, ?_, ?_, ?_, ?_⟩
    · intro hp
      exact ⟨rfl, rfl, rfl, hp⟩
    · intro _ _
      exact ⟨rfl, rfl⟩
    · intro s _ hc
      cases hc
    · intro t ht
      cases ht

theorem inv_foldl (sys : CamSys) (evs : List CamEvent) (h : Inv sys) :
    Inv (evs.foldl step sys) := by
  induction evs generalizing sys with
  | nil => exact h
  | cons ev rest ih => exact ih (step sys ev) (inv_step sys ev h)

theorem inv_run (a : Bool) (evs : List CamEvent) : Inv (runEvents a evs) :=
  inv_foldl _ _ (inv_init a)

theorem inactive_no_live (sys : CamSys) (h : Inv sys) (ha : sys.active = false) :
    sys.live = [] ∧ sys.stream = none := by
  obtain ⟨_hold, hnone, hsome⟩ := h
  cases hh : sys.head with
  | none =>
    obtain ⟨_, b, c⟩ := hnone hh
    exact ⟨b, c⟩
  | some e =>
    obtain ⟨_, _, hok⟩ := hsome e hh
    cases hp : e.pending
    · cases hc : e.currentStream with
      | none => exact hok.2.1 hp hc
      | some s =>
        obtain ⟨_, _, hac, _⟩ := hok.2.2.1 s hp hc
        rw [ha] at hac
        cases hac
    · obtain ⟨_, _, _, hac⟩ := hok.1 hp
      rw [ha] at hac
      cases hac

theorem live_lt_inv (sys : CamSys) (h : Inv sys) : ∀ s ∈ sys.live, s < sys.nextId := by
  obtain ⟨_hold, hnone, hsome⟩ := h
  intro s hs
  cases hh : sys.head with
  | none =>
    rw [(hnone hh).2.1] at hs
    cases hs
  | some e =>
    exact live_lt_of_effectOK _ _ _ _ _ (hsome e hh).2.2 s hs

theorem resolveOld_no_install (sys : CamSys) (h : Inv sys) (i : Nat) :
    (step sys (CamEvent.resolveOld i true)).live = sys.live ∧
    (step sys (CamEvent.resolveOld i true)).stream = sys.stream ∧
    sys.nextId ∉ (step sys (CamEvent.resolveOld i true)).live := by
  have hfresh : sys.nextId ∉ sys.live := by
    intro hmem
    exact absurd (live_lt_inv sys h sys.nextId hmem) (Nat.lt_irrefl _)
  cases hg : sys.old[i]? with
  | none =>
    have he : step sys (.resolveOld i true) = sys := by simp [step, hg]
    rw [he]
    exact ⟨rfl, rfl, hfresh⟩
  | some e =>
    have hum : e.isMounted = false := h.1 e (List.getElem?_mem hg)
    cases hp : e.pending
    · have he : step sys (.resolveOld i true) =
          { sys with
              old := sys.old.set i e
              live := sys.live
              stream := sys.stream
              nextId := sys.nextId } := by
        simp [step, hg, resolveEffect, hp]
      rw [he]
      exact ⟨rfl, rfl, hfresh⟩
    · have he : step sys (.resolveOld i true) =
          { sys with
              old := sys.old.set i ⟨e.isMounted, false, some sys.nextId, e.streamSnapshot⟩
              live := (sys.nextId :: sys.live).erase sys.nextId
              stream := sys.stream
              nextId := sys.nextId + 1 } := by
        simp [step, hg, resolveEffect, hp, hum]
      rw [he]
      have herase : (sys.nextId :: sys.live).erase sys.nextId = sys.live :=
        List.erase_cons_head _ _
      refine ⟨herase, rfl, ?_⟩
      show sys.nextId ∉ (sys.nextId :: sys.live).erase sys.nextId
      rw [herase]
      exact hfresh

/-! ## Scan orchestrator lemmas -/

theorem classify_ne_negative (msg : String) :
    classifyScanError msg ≠ notRecognizedMsg ∧ classifyScanError msg ≠ noEmployeesMsg := by
  unfold classifyScanError
  split
  · exact ⟨by decide, by decide⟩
  · split
    · exact ⟨by decide, by decide⟩
    · exact ⟨by decide, by decide⟩

theorem identify_empty_not_matched (apiKey : Option String) (beh : ServiceBehavior)
    (r : IdentificationResult)
    (hr : identifyEmployeeWithGemini apiKey [] beh = Except.ok r) : r.matched = false := by
  by_cases hk : truthy apiKey = false
  · simp [identifyEmployeeWithGemini, hk] at hr
  · simp [identifyEmployeeWithGemini, hk] at hr
    rw [← hr]

/-! ## Claim theorems -/

/-- Claim C1: in a scan cycle that is not rejected by the single-flight guard
and in which a frame was captured, an `AttendanceRecord` is appended to the
persistent log if and only if the recognition response has `match = true`
with both the employee identifier and the employee name present (truthy);
and when one is appended, exactly one record is appended, with type
`CHECK_IN`, timestamp the current time, and the response confidence. -/
theorem c1_append_iff (st : ScannerState) (captureResult : Option String)
    (employees : List Employee) (apiKey : Option String) (beh : ServiceBehavior)
    (newId now : String)
    (hbusy : st.isProcessing = false) (hcap : truthy captureResult = true) :
    ((handleScan st true captureResult employees apiKey beh newId now).state.records ≠
        st.records ↔
      ∃ r, identifyEmployeeWithGemini apiKey employees beh = Except.ok r ∧
        r.matched = true ∧ truthy r.employeeId = true ∧ truthy r.name = true) ∧
    (∀ r, identifyEmployeeWithGemini apiKey employees beh = Except.ok r →
      r.matched = true → truthy r.employeeId = true → truthy r.name = true →
      (handleScan st true captureResult employees apiKey beh newId now).state.records =
          st.records ++ [mkRecord newId r now] ∧
        (mkRecord newId r now).type = RecordType.CHECK_IN ∧
        (mkRecord newId r now).timestamp = now ∧
        (mkRecord newId r now).confidence = r.confidence) := by
  by_cases hemp : employees.length = 0
  · have hnil : employees = [] := List.length_eq_zero.mp hemp
    subst hnil
    have he : handleScan st true captureResult [] apiKey beh newId now =
        ⟨⟨false, some ⟨false, noEmployeesMsg, none⟩, st.records⟩, false⟩ := by
      simp [handleScan, hbusy, hcap]
    rw [he]
    constructor
    · constructor
      · intro hne
        exact absurd rfl hne
      · rintro ⟨r, hr, hm, _, _⟩
        rw [identify_empty_not_matched apiKey beh r hr] at hm
        cases hm
    · intro r hr hm _ _
      rw [identify_empty_not_matched apiKey beh r hr] at hm
      cases hm
  · cases hid : identifyEmployeeWithGemini apiKey employees beh with
    | error m =>
      have he : handleScan st true captureResult employees apiKey beh newId now =
          ⟨⟨false, some ⟨false, classifyScanError m, none⟩, st.records⟩, true⟩ := by
        simp [handleScan, hbusy, hcap, hemp, hid]
      rw [he]
      constructor
      · constructor
        · intro hne
          exact absurd rfl hne
        · rintro ⟨r, hr, _, _, _⟩
          cases hr
      · intro r hr _ _ _
        cases hr
    | ok r0 =>
      by_cases hcond : (r0.matched && truthy r0.employeeId && truthy r0.name) = true
      · have he : handleScan st true captureResult employees apiKey beh newId now =
            ⟨⟨false, some ⟨true, welcomeMsg (r0.name.getD ""), some r0⟩,
              st.records ++ [mkRecord newId r0 now]⟩, true⟩ := by
          simp [handleScan, hbusy, hcap, hemp, hid, hcond]
        rw [he]
        obtain ⟨hm0, hei0, hn0⟩ :
            r0.matched = true ∧ truthy r0.employeeId = true ∧ truthy r0.name = true := by
          simpa [Bool.and_eq_true, and_assoc] using hcond
        constructor
        · constructor
          · intro _
            exact ⟨r0, rfl, hm0, hei0, hn0⟩
          · intro _ hco
            have := congrArg List.length hco
            simp at this
        · intro r hr _ _ _
          rw [← Except.ok.inj hr]
          exact ⟨rfl, rfl, rfl, rfl⟩
      · have he : handleScan st true captureResult employees apiKey beh newId now =
            ⟨⟨false, some ⟨false, notRecognizedMsg, none⟩, st.records⟩, true⟩ := by
          simp [handleScan, hbusy, hcap, hemp, hid, hcond]
        rw [he]
        constructor
        · constructor
          · intro hne
            exact absurd rfl hne
          · rintro ⟨r, hr, hm, hei, hn⟩
            rw [← Except.ok.inj hr] at hm hei hn
            exact absurd (by simp [hm, hei, hn]) hcond
        · intro r hr hm hei hn
          rw [← Except.ok.inj hr] at hm hei hn
          exact absurd (by simp [hm, hei, hn]) hcond

/-- Witness for C1 at a concrete input: one registered employee and a
positive response; the record is appended. -/
theorem c1_append_iff_witness :
    (handleScan ⟨false, none, []⟩ true (some "img") [emp1] (some "key")
        (ServiceBehavior.ok r1) "id" "t").state.records = [] ++ [mkRecord "id" r1 "t"] :=
  ((c1_append_iff ⟨false, none, []⟩ (some "img") [emp1] (some "key")
      (ServiceBehavior.ok r1) "id" "t" rfl (by decide)).2 r1 rfl rfl (by decide)
      (by decide)).1

/-- Claim C3: a `handleScan` call made while a prior cycle is in flight is
rejected immediately, changing no state and calling no service; and on every
exit path of a non-rejected cycle the single-flight `isProcessing` flag ends
released (false). -/
theorem c3_single_flight (st : ScannerState) (cameraPresent : Bool)
    (captureResult : Option String) (employees : List Employee) (apiKey : Option String)
    (beh : ServiceBehavior) (newId now : String) :
    (st.isProcessing = true →
      handleScan st cameraPresent captureResult employees apiKey beh newId now =
        ⟨st, false⟩) ∧
    (st.isProcessing = false → cameraPresent = true →
      (handleScan st cameraPresent captureResult employees apiKey beh
          newId now).state.isProcessing = false) := by
  constructor
  · intro h
    simp [handleScan, h]
  · intro h hc
    subst hc
    simp only [handleScan, h, Bool.not_true, Bool.false_or]
    split
    · next hco => exact Bool.noConfusion hco
    · split
      · rfl
      · split
        · rfl
        · split
          · rfl
          · split
            · rfl
            · rfl

/-- Witness for C3: a busy scanner rejects the call, returning the state
unchanged with no service call. -/
theorem c3_single_flight_witness :
    handleScan ⟨true, none, []⟩ true (some "img") [] none ServiceBehavior.malformed "id" "t" =
      ⟨⟨true, none, []⟩, false⟩ :=
  (c3_single_flight ⟨true, none, []⟩ true (some "img") [] none ServiceBehavior.malformed
    "id" "t").1 rfl

/-- Claim C4: every outright recognition-service failure (missing credential,
quota exhaustion, malformed output, transport failure) surfaces as a failure
`ScanResult` whose message is the catch-block classification of the thrown
message: the credential kind gets the credential message, the rate-limit
(429) kind the rate-limit message, everything else the generic scan-error
message; the three are pairwise distinct and none of them is the negative
not-recognized message or the empty-roster message, so no service failure is
dropped or presented as a negative match. -/
theorem c4_service_failure_mapped (st : ScannerState) (captureResult : Option String)
    (employees : List Employee) (apiKey : Option String) (beh : ServiceBehavior)
    (newId now msg : String)
    (hbusy : st.isProcessing = false) (hcap : truthy captureResult = true)
    (hemp : employees.length ≠ 0)
    (herr : identifyEmployeeWithGemini apiKey employees beh = Except.error msg) :
    (handleScan st true captureResult employees apiKey beh newId now).state.lastResult =
        some ⟨false, classifyScanError msg, none⟩ ∧
    (handleScan st true captureResult employees apiKey beh newId now).state.records =
        st.records ∧
    classifyScanError msg ≠ notRecognizedMsg ∧
    classifyScanError msg ≠ noEmployeesMsg ∧
    (truthy apiKey = false → classifyScanError msg = apiKeyErrMsg) ∧
    (jsIncludes msg "API Key" = false → jsIncludes msg "429" = true →
      classifyScanError msg = busyErrMsg) ∧
    (jsIncludes msg "API Key" = false → jsIncludes msg "429" = false →
      classifyScanError msg = genericErrMsg) ∧
    apiKeyErrMsg ≠ busyErrMsg ∧ apiKeyErrMsg ≠ genericErrMsg ∧ busyErrMsg ≠ genericErrMsg := by
  have he : handleScan st true captureResult employees apiKey beh newId now =
      ⟨⟨false, some ⟨false, classifyScanError msg, none⟩, st.records⟩, true⟩ := by
    simp [handleScan, hbusy, hcap, hemp, herr]
  rw [he]
  refine ⟨rfl, rfl, (classify_ne_negative msg).1, (classify_ne_negative msg).2, ?_, ?_, ?_,
    by decide, by decide, by decide⟩
  · intro hk
    have hmsg : msg = "API Key is missing in environment variables." := by
      unfold identifyEmployeeWithGemini at herr
      rw [if_pos hk] at herr
      exact (Except.error.inj herr).symm
    rw [hmsg]
    decide
  · intro h1 h2
    simp [classifyScanError, h1, h2]
  · intro h1 h2
    simp [classifyScanError, h1, h2]

/-- Witness for C4: with no credential configured, the scan surfaces the
credential failure message as a failure result. -/
theorem c4_service_failure_mapped_witness :
    (handleScan ⟨false, none, []⟩ true (some "img") [emp1] none ServiceBehavior.malformed
        "id" "t").state.lastResult =
      some ⟨false, classifyScanError "API Key is missing in environment variables.", none⟩ :=
  (c4_service_failure_mapped ⟨false, none, []⟩ (some "img") [emp1] none
    ServiceBehavior.malformed "id" "t" "API Key is missing in environment variables."
    rfl (by decide) (by decide) rfl).1

/-- Claim C7: with an empty roster and a captured frame, the scan returns the
non-error negative result carrying the no-employees message, invokes the
recognition service not at all, and appends no attendance event. -/
theorem c7_empty_roster (st : ScannerState) (captureResult : Option String)
    (apiKey : Option String) (beh : ServiceBehavior) (newId now : String)
    (hbusy : st.isProcessing = false) (hcap : truthy captureResult = true) :
    handleScan st true captureResult [] apiKey beh newId now =
      ⟨⟨false, some ⟨false, noEmployeesMsg, none⟩, st.records⟩, false⟩ := by
  simp [handleScan, hbusy, hcap]

/-- Witness for C7: concrete empty-roster scan. -/
theorem c7_empty_roster_witness :
    handleScan ⟨false, none, []⟩ true (some "img") [] (some "key") ServiceBehavior.malformed
        "id" "t" =
      ⟨⟨false, some ⟨false, noEmployeesMsg, none⟩, []⟩, false⟩ :=
  c7_empty_roster ⟨false, none, []⟩ (some "img") (some "key") ServiceBehavior.malformed
    "id" "t" rfl (by decide)

/-- Claim C10: a response with `match = true` but an absent or empty employee
identifier or name is treated as not recognized: no attendance event is
written and the result is the negative not-recognized one. -/
theorem c10_incomplete_match_negative (st : ScannerState) (captureResult : Option String)
    (employees : List Employee) (apiKey : Option String) (beh : ServiceBehavior)
    (newId now : String) (r : IdentificationResult)
    (hbusy : st.isProcessing = false) (hcap : truthy captureResult = true)
    (hemp : employees.length ≠ 0)
    (hok : identifyEmployeeWithGemini apiKey employees beh = Except.ok r)
    (_hm : r.matched = true)
    (hbad : truthy r.employeeId = false ∨ truthy r.name = false) :
    handleScan st true captureResult employees apiKey beh newId now =
      ⟨⟨false, some ⟨false, notRecognizedMsg, none⟩, st.records⟩, true⟩ := by
  have hcond : (r.matched && truthy r.employeeId && truthy r.name) = false := by
    rcases hbad with hb | hb <;> simp [hb]
  simp [handleScan, hbusy, hcap, hemp, hok, hcond]

/-- Witness for C10: a matched response with an empty name yields the
negative result and no appended record. -/
theorem c10_incomplete_match_negative_witness :
    handleScan ⟨false, none, []⟩ true (some "img") [emp1] (some "key")
        (ServiceBehavior.ok r2) "id" "t" =
      ⟨⟨false, some ⟨false, notRecognizedMsg, none⟩, []⟩, true⟩ :=
  c10_incomplete_match_negative ⟨false, none, []⟩ (some "img") [emp1] (some "key")
    (ServiceBehavior.ok r2) "id" "t" r2 rfl (by decide) (by decide) rfl rfl
    (Or.inr (by decide))

/-- Claim C2: for every sequence of `setActive` toggles, `retry()` calls,
acquisition resolutions and unmounts, the capture session never holds a live
device stream (and has no installed stream) while `active = false`; and when
the asynchronous acquisition of a superseded (cleaned-up) effect run
completes successfully, the freshly acquired device stream is released at the
mount check — the live set and the installed stream are unchanged and the new
stream is not live afterwards. -/
theorem c2_no_stream_while_inactive (a : Bool) (evs : List CamEvent) :
    ((runEvents a evs).active = false →
      (runEvents a evs).live = [] ∧ (runEvents a evs).stream = none) ∧
    (∀ i : Nat,
      (step (runEvents a evs) (CamEvent.resolveOld i true)).live = (runEvents a evs).live ∧
      (step (runEvents a evs) (CamEvent.resolveOld i true)).stream =
          (runEvents a evs).stream ∧
      (runEvents a evs).nextId ∉ (step (runEvents a evs) (CamEvent.resolveOld i true)).live) :=
  ⟨fun ha => inactive_no_live _ (inv_run a evs) ha,
   fun i => resolveOld_no_install _ (inv_run a evs) i⟩

/-- Witness for C2: a session activated, deactivated while its acquisition is
pending, whose stale acquisition then resolves successfully — it ends with no
live stream and nothing installed. -/
theorem c2_no_stream_while_inactive_witness :
    (runEvents true [CamEvent.setActive false, CamEvent.resolveOld 0 true]).live = [] ∧
    (runEvents true [CamEvent.setActive false, CamEvent.resolveOld 0 true]).stream = none :=
  (c2_no_stream_while_inactive true
    [CamEvent.setActive false, CamEvent.resolveOld 0 true]).1 (by decide)

/-- Claim C5: camera acquisition tries the constraint profiles in order: a
non-permission profile failure advances to the next profile (the outcome is
that of the remaining profiles, with one more attempt counted); a permission
refusal aborts the whole sequence immediately with the permission-denied
error state, attempting none of the remaining profiles; and when the first
two profiles fail with non-permission (overconstrained-type) errors and the
third succeeds, the session ends healthy: stream installed, empty error, no
permission flag. -/
theorem c5_profile_fallback :
    (∀ (n : String) (rest : List ProfileOutcome), isPermissionErr n = false →
      startCameraRun (ProfileOutcome.fail n :: rest) =
        { startCameraRun rest with attempted := (startCameraRun rest).attempted + 1 }) ∧
    (∀ (n : String) (rest : List ProfileOutcome), isPermissionErr n = true →
      startCameraRun (ProfileOutcome.fail n :: rest) = ⟨1, false, permissionMsg, true⟩) ∧
    (∀ n1 n2 : String, isPermissionErr n1 = false → isPermissionErr n2 = false →
      startCameraRun [ProfileOutcome.fail n1, ProfileOutcome.fail n2, ProfileOutcome.ok] =
        ⟨3, true, "", false⟩) := by
  refine ⟨?_, ?_, ?_⟩
  · intro n rest hn
    cases hr : (tryConstraints rest).2 <;>
      simp [startCameraRun, tryConstraints, hn, hr]
  · intro n rest hn
    simp [startCameraRun, tryConstraints, hn, camErrorState]
  · intro n1 n2 hn1 hn2
    simp [startCameraRun, tryConstraints, hn1, hn2]

/-- Witness for C5: two overconstrained failures then success ends healthy. -/
theorem c5_profile_fallback_witness :
    startCameraRun [ProfileOutcome.fail "OverconstrainedError",
        ProfileOutcome.fail "OverconstrainedError", ProfileOutcome.ok] =
      ⟨3, true, "", false⟩ :=
  c5_profile_fallback.2.2 "OverconstrainedError" "OverconstrainedError"
    (by decide) (by decide)

/-- Claim C6: `capture()` returns null whenever no stream is installed, in
every session state, and it never mutates the session (the modelled
transition returns the state unchanged); the Lean function is total, which
embeds that the source `capture` never throws. -/
theorem c6_capture_null_never_mutates (sys : CamSys) (videoPresent ctx2d : Bool)
    (frame : String) :
    (sys.stream = none → (captureStep sys videoPresent ctx2d frame).1 = none) ∧
    (captureStep sys videoPresent ctx2d frame).2 = sys := by
  constructor
  · intro h
    simp [captureStep, capture, h]
  · rfl

/-- Witness for C6: capturing on a freshly mounted session (no installed
stream) yields null. -/
theorem c6_capture_null_never_mutates_witness :
    (captureStep (initSys true) true true "frame").1 = none :=
  (c6_capture_null_never_mutates (initSys true) true true "frame").1 rfl

/-- Claim C8 as stated is false at this input: all three profiles fail with
`NotReadableError` (device in use), so per the claim the session should end
in the no-device or the device-busy error state; the code ends with the
generic exhaustion message instead. -/
theorem c8_counterexample :
    ¬ ((startCameraRun [ProfileOutcome.fail "NotReadableError",
          ProfileOutcome.fail "NotReadableError",
          ProfileOutcome.fail "NotReadableError"]).error = noDeviceMsg ∨
       (startCameraRun [ProfileOutcome.fail "NotReadableError",
          ProfileOutcome.fail "NotReadableError",
          ProfileOutcome.fail "NotReadableError"]).error = deviceBusyMsg) := by
  decide

/-- Claim C8 (amended): if every profile fails and none of the failures is a
permission refusal, acquisition terminates with no stream, with the
permission flag clear, and with the generic exhaustion error message
`Could not initialize camera with any supported settings.` — regardless of
the kinds of the individual failures (the code never maps exhaustion to the
no-device or device-busy states). -/
theorem c8_exhausted_generic_error (ns : List String)
    (h : ∀ n ∈ ns, isPermissionErr n = false) :
    startCameraRun (ns.map ProfileOutcome.fail) =
      ⟨ns.length, false, noStreamMsg, false⟩ := by
  have hl : ∀ ms : List String, (∀ n ∈ ms, isPermissionErr n = false) →
      tryConstraints (ms.map ProfileOutcome.fail) = (ms.length, TryResult.exhausted) := by
    intro ms
    induction ms with
    | nil => intro _; rfl
    | cons n rest ih =>
      intro hh
      have hn : isPermissionErr n = false := hh n (List.mem_cons_self n rest)
      have hr := ih (fun m hm => hh m (List.mem_cons_of_mem _ hm))
      simp [tryConstraints, hn, hr]
  have hc : camErrorState "Error" noStreamMsg = (noStreamMsg, false) := by decide
  simp [startCameraRun, hl ns h, hc]

/-- Witness for the amended C8: three device-busy failures end in the generic
error state with no stream. -/
theorem c8_exhausted_generic_error_witness :
    startCameraRun (["NotReadableError", "NotReadableError",
        "NotReadableError"].map ProfileOutcome.fail) =
      ⟨3, false, noStreamMsg, false⟩ :=
  c8_exhausted_generic_error ["NotReadableError", "NotReadableError", "NotReadableError"]
    (by decide)

/-- Claim C9: the reference gallery forwarded to the recognition service is
exactly the suffix of the roster made of the most-recently-registered at most
50 entries: the roster splits as a dropped older segment followed by the
forwarded gallery, whose length is `min (length) 50` — entries before that
suffix are never sent. -/
theorem c9_gallery_is_recent_suffix (employees : List Employee) :
    employees = employees.take (employees.length - 50) ++ recentEmployees employees ∧
    (recentEmployees employees).length = min employees.length 50 := by
  constructor
  · exact (List.take_append_drop _ _).symm
  · simp only [recentEmployees, List.length_drop]
    omega

end EAMS
